import Mathlib

/-!
Verification development for `mjpeg-digest-auth-proxy`, a single-route HTTP
reverse proxy that authenticates to an upstream MJPEG server with HTTP Digest
authentication and streams the upstream body back to the client.

The embedding follows `src/main.rs` (the `mjpeg` handler, the `RqId` request
identifier counter) and `src/mw.rs` (the `StreamWithLoggedEnd` response-body
wrapper and its `Drop` implementation).
-/

namespace MjpegProxy

/-- Bytes of a body chunk (`axum::body::Bytes`), as a list of byte values. -/
abbrev Chunk := List Nat

/-- Error type of a mid-stream read failure, the `E` of `Result<Bytes, E>`
items yielded by the upstream byte stream. -/
inductive StreamErr where
  | transport
  deriving DecidableEq, Repr

/-- One item of the upstream byte stream: `Result<Bytes, E>`. -/
abbrev Item := Except StreamErr Chunk

instance : DecidableEq Item := fun a b =>
  match a, b with
  | .ok x, .ok y =>
    if h : x = y then .isTrue (by simp [h])
    else .isFalse (fun hc => h (Except.ok.inj hc))
  | .ok _, .error _ => .isFalse (by simp)
  | .error _, .ok _ => .isFalse (by simp)
  | .error x, .error y =>
    if h : x = y then .isTrue (by simp [h])
    else .isFalse (fun hc => h (Except.error.inj hc))

/-- Error returned by `send_with_digest_auth` when the connection cannot be
established or the transport errors before a response is received. -/
inductive FetchError where
  | network
  deriving DecidableEq, Repr

/-- Upstream response as seen by the handler (`reqwest::Response`): status
code, header map, and the lazy byte stream (`bytes_stream()`) as a list of
`Result<Bytes, E>` items. -/
structure UpstreamResponse where
  status : Nat
  headers : List (String × String)
  bodyChunks : List Item
  deriving DecidableEq, Repr

/-- Outbound HTTP response constructed by the handler: status, header map,
and body stream. -/
structure HttpResponse where
  status : Nat
  headers : List (String × String)
  body : List Item
  deriving DecidableEq, Repr

/-- Embedding of `StatusCode::BAD_GATEWAY.into_response()` (`err_bg` in
`mjpeg`): a `502` response with no headers and an empty body. -/
def errBg : HttpResponse := { status := 502, headers := [], body := [] }

/-- Embedding of `StatusCode::INTERNAL_SERVER_ERROR.into_response()`
(`srv_err` in `mjpeg`): a `500` response with no headers and an empty body. -/
def srvErr : HttpResponse := { status := 500, headers := [], body := [] }

/-- Embedding of the `mjpeg` handler of `src/main.rs` (lines 161-192).

`fetch` is the outcome of `send_with_digest_auth`; `headersMutOk` is whether
`Response::builder().headers_mut()` returns `Some`, and `bodyBuildOk` is
whether `b.body(Body::from_stream(...))` returns `Ok` — the two local
response-construction steps.

The handler: on fetch error return `err_bg`; on status other than `200`
return `err_bg`; otherwise copy the entire upstream header map into the
builder (or return `srv_err` when `headers_mut` fails) and attach the
upstream byte stream as the body (or return `srv_err` when that fails). -/
def mjpeg (fetch : Except FetchError UpstreamResponse)
    (headersMutOk bodyBuildOk : Bool) : HttpResponse :=
  match fetch with
  | .error _ => errBg
  | .ok u =>
    if u.status ≠ 200 then errBg
    else if headersMutOk then
      if bodyBuildOk then
        { status := 200, headers := u.headers, body := u.bodyChunks }
      else srvErr
    else srvErr

/-- Embedding of `StreamWithLoggedEnd` from `src/mw.rs` (lines 16-19): a
wrapper around the inner response-body stream (modelled by its remaining
items) together with the tracing span captured at construction. -/
structure StreamWithLoggedEnd where
  inner : List Item
  span : Nat
  deriving DecidableEq, Repr

/-- Embedding of `StreamWithLoggedEnd::poll_next` (`src/mw.rs` lines 30-32):
the wrapper delegates directly to the inner stream (`Pin::new(&mut
self.inner).poll_next(cx)`), yielding the inner stream's next item unchanged
and buffering nothing. -/
def StreamWithLoggedEnd.pollNext (s : StreamWithLoggedEnd) :
    Option Item × StreamWithLoggedEnd :=
  match s.inner with
  | [] => (none, s)
  | i :: rest => (some i, { s with inner := rest })

/-- Fuel-indexed driver that repeatedly calls `pollNext` and collects the
yielded items until the stream reports exhaustion (or fuel runs out). -/
def StreamWithLoggedEnd.drainFuel : Nat → StreamWithLoggedEnd → List Item
  | 0, _ => []
  | Nat.succ fuel, s =>
    match s.pollNext with
    | (none, _) => []
    | (some i, s2) => i :: drainFuel fuel s2

/-- The full sequence of items the downstream consumer obtains by polling the
wrapper to exhaustion. -/
def StreamWithLoggedEnd.drain (s : StreamWithLoggedEnd) : List Item :=
  StreamWithLoggedEnd.drainFuel (s.inner.length + 1) s

/-- Observable tracing events during a response stream's lifetime: per-chunk
trace records (from `on_body_chunk` in `src/main.rs` lines 124-129) and the
"stream ended" record logged by the wrapper's destructor. -/
inductive Ev where
  | chunkLogged (sizeBytes : Nat)
  | streamEnded (span : Nat)
  deriving DecidableEq, Repr

/-- Whether an event is the lifecycle completion record "stream ended". -/
def Ev.isEnd : Ev → Bool
  | .streamEnded _ => true
  | .chunkLogged _ => false

/-- Trace events attached to relaying one stream item: a data chunk is logged
with its size; an error item produces no chunk record. -/
def itemChunkEvents : Item → List Ev
  | .ok c => [.chunkLogged c.length]
  | .error _ => []

/-- Embedding of `impl Drop for StreamWithLoggedEnd` (`src/mw.rs` lines
34-39): dropping the wrapper enters its span and logs one "stream ended"
event. -/
def StreamWithLoggedEnd.dropEvents (s : StreamWithLoggedEnd) : List Ev :=
  [.streamEnded s.span]

/-- Events emitted over one complete lifecycle of a wrapped response stream:
the downstream consumer performs `k` pulls — `k` reaching the stream length
models normal exhaustion, a smaller `k` models stopping at a mid-stream error
or abandoning the stream on client disconnect — after which the wrapper is
destroyed, and Rust runs `Drop` exactly once at destruction on every such
exit path. -/
def StreamWithLoggedEnd.lifecycleEvents (s : StreamWithLoggedEnd) (k : Nat) :
    List Ev :=
  ((s.inner.take k).map itemChunkEvents).flatten ++ s.dropEvents

/-- Embedding of `logged_end_middleware_fn` (`src/mw.rs` lines 40-44): the
middleware splits the inner response into parts and body, wraps the body's
data stream in `StreamWithLoggedEnd` with the current span, and reassembles
the response around the wrapped stream; status and headers pass through. -/
structure WrappedResponse where
  status : Nat
  headers : List (String × String)
  body : StreamWithLoggedEnd
  deriving DecidableEq, Repr

def loggedEndMiddleware (rs : HttpResponse) (span : Nat) : WrappedResponse :=
  { status := rs.status, headers := rs.headers,
    body := { inner := rs.body, span := span } }

/-- Embedding of the `RqId` request-identifier counter (`src/main.rs` lines
66-78): a process-wide `AtomicU64` shared by all requests; the state is the
current counter value, always below `2 ^ 64`. -/
structure RqId where
  counter : Nat
  deriving DecidableEq, Repr

/-- Embedding of `RqId::new` (`src/main.rs` lines 69-71): the counter starts
at 1. -/
def RqId.new : RqId := { counter := 1 }

/-- Embedding of `RqId::next` (`src/main.rs` lines 75-77):
`fetch_add(1, Ordering::Relaxed)` returns the previous value and stores the
incremented value, wrapping modulo `2 ^ 64` on `u64` overflow. The operation
is one atomic read-modify-write, so any concurrent execution of `n` calls
linearizes to `n` sequential calls on the shared counter. -/
def RqId.next (r : RqId) : Nat × RqId :=
  (r.counter, { counter := (r.counter + 1) % 2 ^ 64 })

/-- Identifiers returned by `n` successive `RqId::next` calls on the same
counter. -/
def RqId.nextIds (r : RqId) : Nat → List Nat
  | 0 => []
  | Nat.succ n => (r.next).1 :: (r.next).2.nextIds n

/-- Modelled from the spec: the behaviour of `send_with_digest_auth` from the
`diqwest` crate, an external dependency whose source is not part of this
repository. Spec 4.1: the client sends one GET to the upstream; if the
upstream replies `401` with a `WWW-Authenticate: Digest` challenge, the
client computes the digest answer from the configured username/password and
retransmits the request exactly once with an `Authorization: Digest` header
— the only retry in the system; when the connection cannot be established or
the transport errors before a response is received the call fails with
`FetchError::Network` after the single attempt. An upstream that rejects the
digest answer replies `401` again, which is returned as an ordinary response
(spec 4.2 treats auth failure after retry under `BadStatus`). -/
structure DigestUpstream where
  reachable : Bool
  requiresDigest : Bool
  acceptsCreds : String → String → Bool
  okResponse : UpstreamResponse
  unauthorizedResponse : UpstreamResponse

/-- Modelled from the spec: one `send_with_digest_auth` call, returning the
number of upstream-bound network attempts it performed together with its
outcome. -/
def sendWithDigestAuth (up : DigestUpstream) (user pass : String) :
    Nat × Except FetchError UpstreamResponse :=
  if up.reachable = false then (1, .error .network)
  else if up.requiresDigest then
    if up.acceptsCreds user pass then (2, .ok up.okResponse)
    else (2, .ok up.unauthorizedResponse)
  else (1, .ok up.okResponse)

/-- Upstream-bound network attempts for one client-facing request: the
`mjpeg` handler performs exactly one `send_with_digest_auth` call
(`src/main.rs` lines 163-168) and contains no retry of its own, so the
per-request attempt count is that single call's attempt count. -/
def mjpegUpstreamAttempts (up : DigestUpstream) (user pass : String) : Nat :=
  (sendWithDigestAuth up user pass).1

end MjpegProxy

namespace MjpegProxy

/-- Sample upstream 200 response carrying an MJPEG content-type header, a
second header, and a body with a data chunk followed by a mid-stream error. -/
def sampleOk : UpstreamResponse :=
  { status := 200
    headers := [("content-type", "multipart/x-mixed-replace; boundary=frame"),
                ("server", "mjpg-streamer")]
    bodyChunks := [.ok [255, 216, 255, 217], .error .transport] }

/-- Sample upstream 200 response with no content-type header (no headers at
all) and a JPEG-like body chunk. -/
def sampleNoCT : UpstreamResponse :=
  { status := 200, headers := [], bodyChunks := [.ok [255, 216, 255, 217]] }

/-- Sample Digest-protected upstream that accepts the credential pair
`admin`/`secret`. -/
def sampleDigestUpstream : DigestUpstream :=
  { reachable := true
    requiresDigest := true
    acceptsCreds := fun u p => u == "admin" && p == "secret"
    okResponse := sampleOk
    unauthorizedResponse := { status := 401, headers := [], bodyChunks := [] } }

/-- Polling the wrapper yields exactly the head of the inner stream and
leaves exactly its tail: one pull consumes one upstream item, with chunk
boundaries kept intact. -/
theorem pollNext_head_tail (s : StreamWithLoggedEnd) :
    s.pollNext = (s.inner.head?, { inner := s.inner.tail, span := s.span }) := by
  cases s with
  | mk inner span => cases inner <;> rfl

/-- Driving `pollNext` with enough fuel returns the inner item list. -/
theorem drainFuel_eq (l : List Item) (sp : Nat) :
    ∀ fuel, l.length < fuel →
      StreamWithLoggedEnd.drainFuel fuel { inner := l, span := sp } = l := by
  induction l with
  | nil =>
    intro fuel h
    cases fuel with
    | zero => exact absurd h (by simp)
    | succ f => rfl
  | cons a l ih =>
    intro fuel h
    cases fuel with
    | zero => exact absurd h (by simp)
    | succ f =>
      have h2 : l.length < f := by simpa using h
      simp [StreamWithLoggedEnd.drainFuel, StreamWithLoggedEnd.pollNext, ih f h2]

/-- Draining the wrapper to exhaustion returns the inner item list. -/
theorem drain_eq_inner (s : StreamWithLoggedEnd) : s.drain = s.inner := by
  cases s with
  | mk inner span => exact drainFuel_eq inner span _ (Nat.lt_succ_self _)

/-- Per-chunk trace records contain no "stream ended" event. -/
theorem chunkEvents_no_end (l : List Item) :
    ((l.map itemChunkEvents).flatten.countP Ev.isEnd) = 0 := by
  induction l with
  | nil => rfl
  | cons a l ih =>
    cases a with
    | ok c =>
      simpa [itemChunkEvents, List.countP_append, List.countP_cons, Ev.isEnd]
        using ih
    | error e => simpa [itemChunkEvents, List.countP_append] using ih

/-- Successive `RqId::next` identifiers before wraparound form the interval
starting at the current counter value. -/
theorem nextIds_eq_range' (n : Nat) :
    ∀ c, c + n ≤ 2 ^ 64 →
      RqId.nextIds { counter := c } n = List.range' c n := by
  induction n with
  | zero => intro c _; rfl
  | succ n ih =>
    intro c h
    have hms : RqId.nextIds { counter := c } (n + 1)
        = c :: RqId.nextIds { counter := (c + 1) % 2 ^ 64 } n := rfl
    rw [hms, List.range'_succ]
    congr 1
    cases n with
    | zero => rfl
    | succ m =>
      have hlt : c + 1 < 2 ^ 64 := by omega
      rw [Nat.mod_eq_of_lt hlt]
      exact ih (c + 1) (by omega)

/-- C1 counterexample: on an upstream 200 response lacking a content-type
header the handler does not return 502; it forwards a 200 response together
with the upstream body. -/
theorem mjpeg_missing_content_type_forwarded_cex :
    (mjpeg (.ok sampleNoCT) true true).status = 200 ∧
    (mjpeg (.ok sampleNoCT) true true).status ≠ 502 ∧
    (mjpeg (.ok sampleNoCT) true true).body = sampleNoCT.bodyChunks := by
  decide

/-- C1 (amended): the handler performs no content-type validation. For every
upstream response of status 200 without a content-type header, with the
local construction steps succeeding, the handler forwards a response of
status 200 with the (content-type-less) upstream header map copied verbatim
and the upstream body attached; it does not return 502. -/
theorem mjpeg_no_content_type_validation (u : UpstreamResponse)
    (h : u.status = 200)
    (_hct : ∀ p ∈ u.headers, p.1 ≠ "content-type") :
    mjpeg (.ok u) true true
      = { status := 200, headers := u.headers, body := u.bodyChunks } := by
  simp [mjpeg, h]

/-- Witness for C1's amended theorem at a concrete content-type-less 200
upstream response. -/
theorem mjpeg_no_content_type_validation_witness :
    sampleNoCT.status = 200 ∧
    (∀ p ∈ sampleNoCT.headers, p.1 ≠ "content-type") ∧
    mjpeg (.ok sampleNoCT) true true
      = { status := 200, headers := sampleNoCT.headers,
          body := sampleNoCT.bodyChunks } :=
  ⟨rfl, by decide, mjpeg_no_content_type_validation sampleNoCT rfl (by decide)⟩

/-- C2 counterexample: for a successful upstream response carrying a second
header besides content-type, the outbound response does not have exactly one
header — the entire upstream header map (here of size 2) is present. -/
theorem mjpeg_single_header_cex :
    (mjpeg (.ok sampleOk) true true).headers.length = 2 ∧
    ¬ (mjpeg (.ok sampleOk) true true).headers.length = 1 := by
  decide

/-- C2 (amended): for every request in which the upstream fetch succeeds
with status 200 and the local construction steps succeed, the outbound
response has status 200 and its header map is the verbatim copy of the whole
upstream header map — so a content-type header, when present, is preserved
with its upstream value — rather than exactly one header. -/
theorem mjpeg_success_response_shape (u : UpstreamResponse)
    (h : u.status = 200) :
    (mjpeg (.ok u) true true).status = 200 ∧
    (mjpeg (.ok u) true true).headers = u.headers := by
  constructor <;> simp [mjpeg, h]

/-- Witness for C2's amended theorem at a concrete 200 upstream response
with an MJPEG content-type header. -/
theorem mjpeg_success_response_shape_witness :
    sampleOk.status = 200 ∧
    (mjpeg (.ok sampleOk) true true).status = 200 ∧
    (mjpeg (.ok sampleOk) true true).headers = sampleOk.headers :=
  ⟨rfl, (mjpeg_success_response_shape sampleOk rfl).1,
    (mjpeg_success_response_shape sampleOk rfl).2⟩

/-- C3: for every request in which the upstream responds with a status other
than 200, the handler returns exactly the bad-gateway response: status 502
with no headers and an empty body — the upstream body is not forwarded. -/
theorem mjpeg_non200_bad_gateway (u : UpstreamResponse)
    (headersMutOk bodyBuildOk : Bool) (h : u.status ≠ 200) :
    mjpeg (.ok u) headersMutOk bodyBuildOk = errBg ∧
    errBg.status = 502 ∧ errBg.body = [] ∧ errBg.headers = [] := by
  exact ⟨by simp [mjpeg, h], rfl, rfl, rfl⟩

/-- Sample upstream 404 response with a content-type header and a body. -/
def sampleNotFound : UpstreamResponse :=
  { status := 404, headers := [("content-type", "text/html")],
    bodyChunks := [.ok [110, 111]] }

/-- Witness for C3: a concrete 404 upstream response with a body is mapped
to the bad-gateway response. -/
theorem mjpeg_non200_bad_gateway_witness :
    sampleNotFound.status ≠ 200 ∧
    mjpeg (.ok sampleNotFound) true true = errBg :=
  ⟨by decide, (mjpeg_non200_bad_gateway sampleNotFound true true (by decide)).1⟩

/-- C4: for every request in which the upstream fetch fails before a
response is received, the handler returns the bad-gateway response: status
502 with an empty body, regardless of the local builder outcomes. -/
theorem mjpeg_fetch_error_bad_gateway (e : FetchError)
    (headersMutOk bodyBuildOk : Bool) :
    mjpeg (.error e) headersMutOk bodyBuildOk = errBg ∧
    errBg.status = 502 ∧ errBg.body = [] :=
  ⟨rfl, rfl, rfl⟩

/-- C5: for every successful request, the relayed body yields exactly the
upstream item sequence: the handler attaches the upstream byte stream
unchanged and the logging middleware wraps it in `StreamWithLoggedEnd`,
whose `poll_next` merely delegates — draining the wrapped response equals
the upstream chunk list, and each single pull takes exactly the inner
stream's head and leaves exactly its tail, so no re-chunking occurs and
nothing beyond the one chunk in flight is buffered. -/
theorem mjpeg_body_passthrough (u : UpstreamResponse) (span : Nat)
    (h : u.status = 200) :
    (loggedEndMiddleware (mjpeg (.ok u) true true) span).body.drain
      = u.bodyChunks ∧
    ∀ s : StreamWithLoggedEnd,
      s.pollNext = (s.inner.head?, { inner := s.inner.tail, span := s.span }) := by
  constructor
  · have hb : (loggedEndMiddleware (mjpeg (.ok u) true true) span).body
        = { inner := u.bodyChunks, span := span } := by
      simp [loggedEndMiddleware, mjpeg, h]
    rw [hb]
    exact drain_eq_inner _
  · exact pollNext_head_tail

/-- Witness for C5 at a concrete 200 upstream response whose body holds a
data chunk followed by a mid-stream error item. -/
theorem mjpeg_body_passthrough_witness :
    sampleOk.status = 200 ∧
    (loggedEndMiddleware (mjpeg (.ok sampleOk) true true) 7).body.drain
      = sampleOk.bodyChunks :=
  ⟨rfl, (mjpeg_body_passthrough sampleOk 7 rfl).1⟩

/-- C6 counterexample: `fetch_add` on an `AtomicU64` wraps at `2 ^ 64`. On a
counter that has reached `2 ^ 64 - 1`, two successive `RqId::next` calls
return `2 ^ 64 - 1` and then `0`: the identifier sequence is not strictly
increasing. -/
theorem rqid_wraparound_cex :
    RqId.nextIds { counter := 2 ^ 64 - 1 } 2 = [2 ^ 64 - 1, 0] ∧
    ¬ List.Pairwise (· < ·) (RqId.nextIds { counter := 2 ^ 64 - 1 } 2) := by
  decide

/-- C6 (amended): from a fresh counter (`RqId::new` starts at 1) and as long
as at most `2 ^ 64 - 1` identifiers are drawn — i.e. before `u64`
wraparound, which no realistic execution reaches — the identifiers of `n`
successive `RqId::next` calls are exactly `1, 2, ..., n`: pairwise strictly
increasing (hence any two distinct calls return distinct values),
duplicate-free, and the set of observed identifiers has cardinality `n`;
atomicity of `fetch_add` linearizes `n` concurrent calls into such a
sequence. -/
theorem rqid_ids_strictly_increasing (n : Nat) (h : n ≤ 2 ^ 64 - 1) :
    RqId.new.nextIds n = List.range' 1 n ∧
    List.Pairwise (· < ·) (RqId.new.nextIds n) ∧
    (RqId.new.nextIds n).Nodup ∧
    (RqId.new.nextIds n).length = n ∧
    (RqId.new.nextIds n).toFinset.card = n := by
  have hpow : (2 : Nat) ^ 64 = 18446744073709551616 := by norm_num
  have he : RqId.new.nextIds n = List.range' 1 n :=
    nextIds_eq_range' n 1 (by omega)
  have hpar : List.Pairwise (· < ·) (RqId.new.nextIds n) := by
    rw [he]; exact List.pairwise_lt_range' 1 n
  have hnd : (RqId.new.nextIds n).Nodup := by
    rw [he]; exact List.nodup_range' 1 n
  have hlen : (RqId.new.nextIds n).length = n := by
    rw [he]; exact List.length_range' 1 1 n
  exact ⟨he, hpar, hnd, hlen,
    (List.toFinset_card_of_nodup hnd).trans hlen⟩

/-- Witness for C6's amended theorem: three calls on a fresh counter yield
the identifiers 1, 2, 3. -/
theorem rqid_ids_strictly_increasing_witness :
    3 ≤ 2 ^ 64 - 1 ∧ RqId.new.nextIds 3 = [1, 2, 3] :=
  ⟨by norm_num, ((rqid_ids_strictly_increasing 3 (by norm_num)).1).trans (by decide)⟩

/-- C7: for every wrapped response stream and every consumption length —
normal exhaustion, stopping at a mid-stream error item, or abandoning the
stream early on client disconnect — the lifecycle's event list contains the
"stream ended" completion record exactly once, because the record is emitted
by the wrapper's destructor, which Rust runs exactly once at destruction on
every exit path, rather than by an explicit completion call. -/
theorem stream_ended_fires_exactly_once (s : StreamWithLoggedEnd) (k : Nat) :
    (s.lifecycleEvents k).countP Ev.isEnd = 1 := by
  unfold StreamWithLoggedEnd.lifecycleEvents StreamWithLoggedEnd.dropEvents
  rw [List.countP_append, chunkEvents_no_end]
  rfl

/-- C8: the upstream client retransmits at most once and only for a Digest
challenge. When the upstream requires Digest authentication, is reachable,
and accepts the credentials, exactly two upstream-bound network attempts
occur and the call succeeds with the upstream's response; for every upstream
and credentials the per-request attempt count of the handler's single
`send_with_digest_auth` call is at most 2, and it is exactly 1 when the
upstream issues no digest challenge — no other retry exists in the system. -/
theorem digest_retry_at_most_once (up : DigestUpstream) (user pass : String)
    (hr : up.reachable = true) (hd : up.requiresDigest = true)
    (hc : up.acceptsCreds user pass = true) :
    mjpegUpstreamAttempts up user pass = 2 ∧
    (sendWithDigestAuth up user pass).2 = .ok up.okResponse ∧
    (∀ up2 : DigestUpstream, ∀ u2 p2 : String,
      mjpegUpstreamAttempts up2 u2 p2 ≤ 2) ∧
    (∀ up2 : DigestUpstream, ∀ u2 p2 : String, up2.requiresDigest = false →
      mjpegUpstreamAttempts up2 u2 p2 = 1) := by
  refine ⟨?_, ?_, ?_, ?_⟩
  · simp [mjpegUpstreamAttempts, sendWithDigestAuth, hr, hd, hc]
  · simp [sendWithDigestAuth, hr, hd, hc]
  · intro up2 u2 p2
    simp only [mjpegUpstreamAttempts, sendWithDigestAuth]
    split_ifs <;> simp
  · intro up2 u2 p2 hnd
    simp only [mjpegUpstreamAttempts, sendWithDigestAuth, hnd]
    split_ifs <;> simp_all

/-- Witness for C8 at a concrete reachable Digest-protected upstream with
the accepted credentials. -/
theorem digest_retry_at_most_once_witness :
    sampleDigestUpstream.reachable = true ∧
    sampleDigestUpstream.requiresDigest = true ∧
    sampleDigestUpstream.acceptsCreds "admin" "secret" = true ∧
    mjpegUpstreamAttempts sampleDigestUpstream "admin" "secret" = 2 :=
  ⟨rfl, rfl, by decide,
    (digest_retry_at_most_once sampleDigestUpstream "admin" "secret"
      rfl rfl (by decide)).1⟩

/-- C9: the handler returns status 500 exactly when the upstream fetch
succeeded with status 200 and a local response-construction step failed —
`headers_mut` returned `None` or attaching the streamed body failed; no
upstream condition (fetch error or non-200 status) maps to 500. -/
theorem mjpeg_500_iff_local_construction_failure
    (fetch : Except FetchError UpstreamResponse)
    (headersMutOk bodyBuildOk : Bool) :
    (mjpeg fetch headersMutOk bodyBuildOk).status = 500 ↔
      ∃ u, fetch = .ok u ∧ u.status = 200 ∧
        (headersMutOk = false ∨ bodyBuildOk = false) := by
  cases fetch with
  | error e => simp [mjpeg, errBg]
  | ok u =>
    by_cases h : u.status = 200
    · cases headersMutOk <;> cases bodyBuildOk <;>
        simp [mjpeg, h, errBg, srvErr]
    · simp [mjpeg, h, errBg]

/-- C10: for every upstream response of status 200, when the local
construction steps succeed the handler copies the entire upstream header map
verbatim into the outbound response: the downstream header list equals the
upstream one, so every upstream header — not only content-type — appears
downstream with its upstream value, and no header filtering occurs. -/
theorem mjpeg_copies_all_upstream_headers (u : UpstreamResponse)
    (h : u.status = 200) :
    (mjpeg (.ok u) true true).headers = u.headers ∧
    ∀ p ∈ u.headers, p ∈ (mjpeg (.ok u) true true).headers := by
  have hh : (mjpeg (.ok u) true true).headers = u.headers := by
    simp [mjpeg, h]
  exact ⟨hh, fun p hp => hh ▸ hp⟩

/-- Witness for C10 at a concrete 200 upstream response carrying both a
content-type header and a server header. -/
theorem mjpeg_copies_all_upstream_headers_witness :
    sampleOk.status = 200 ∧
    (mjpeg (.ok sampleOk) true true).headers = sampleOk.headers :=
  ⟨rfl, (mjpeg_copies_all_upstream_headers sampleOk rfl).1⟩

end MjpegProxy
